import Mathlib

/-!
Verification of the Mrs. Salesforce conversational field-completion state
machine (`mrs-salesforce/app.py`) against its natural-language specification.

The Python program is shallowly embedded: the pydantic data models become
Lean structures with `Option` fields, the Streamlit session state becomes
the `AppState` structure, and each event handler (button press, form submit,
chat turn) becomes a pure state-transition function.  Python truthiness of
optional strings (`None` and `""` are falsy) is modelled by `truthyStr`, and
of optional floats (`None` and `0.0` are falsy) by `truthyFloat`.
-/

namespace MrsSalesforce

/-- Conversation stages, mirroring the `STAGE_*` constants of `app.py`
(lines 62-71). -/
inductive Stage where
  | transcript
  | chat_collection
  | account
  | account_verify
  | contact
  | contact_verify
  | opportunity
  | opportunity_verify
  | final_review
  | complete
deriving DecidableEq, Repr

/-- Entity categories handled by the state machine. -/
inductive Category where
  | account
  | contact
  | opportunity
deriving DecidableEq, Repr

/-- Exact model of a Python float value produced by parsing decimal text:
`mantissa * 10 ^ (-scale)`.  The verified properties only ever compare a
float with a float built by the same construction and test it against
zero, so structural equality suffices and no rounding semantics is
needed. -/
structure PyFloat where
  mantissa : Int
  scale : Nat
deriving DecidableEq, Repr

/-- ContactData pydantic model (`models.py`): every extracted field is
optional, `record_type` defaults to `"CRM contact"`. -/
structure ContactData where
  first_name : Option String := none
  last_name : Option String := none
  email : Option String := none
  phone : Option String := none
  title : Option String := none
  record_type : String := "CRM contact"
  currency : Option String := none
deriving DecidableEq, Repr

/-- AccountData pydantic model (`models.py`). -/
structure AccountData where
  name : Option String := none
  industry : Option String := none
  website : Option String := none
  annual_revenue : Option PyFloat := none
  number_of_employees : Option Int := none
  billing_city : Option String := none
  billing_state : Option String := none
  billing_country : Option String := none
  currency : Option String := none
  segment : Option String := none
  region : Option String := none
  record_type : String := "Customer"
deriving DecidableEq, Repr

/-- MEDDICData pydantic model (`models.py`): six optional notes fields. -/
structure MEDDICData where
  metrics_notes : Option String := none
  economic_buyers_notes : Option String := none
  decision_criteria_notes : Option String := none
  decision_process_notes : Option String := none
  identified_pain : Option String := none
  champion : Option String := none
deriving DecidableEq, Repr

/-- OpportunityData pydantic model (`models.py`); `amount` is a float,
modelled as `Option PyFloat`. -/
structure OpportunityData where
  name : Option String := none
  stage : String := "Identified"
  forecast_category : String := "Pipeline"
  amount : Option PyFloat := none
  close_date : Option String := none
  probability : Option Int := none
  deal_summary : Option String := none
  next_steps : Option String := none
  description : Option String := none
  lead_source : Option String := some "Call"
  meddic : Option MEDDICData := none
  type : Option String := none
  practice : Option String := none
  region : Option String := none
  currency : Option String := none
  projected_start_date : Option String := none
  number_of_weeks : Option Int := none
deriving DecidableEq, Repr

/-- SalesCallData pydantic model (`models.py`): the full extraction result. -/
structure SalesCallData where
  contact : Option ContactData := none
  account : Option AccountData := none
  opportunity : Option OpportunityData := none
  transcript : String := ""
  summary : Option String := none
deriving DecidableEq, Repr

/-- Python truthiness of an optional string field: `None` and the empty
string are falsy, every other string (including whitespace-only strings)
is truthy.  This is the test `if not data.field` used throughout `app.py`. -/
def truthyStr : Option String → Bool
  | none => false
  | some s => s != ""

/-- Python truthiness of an optional float field: `None` and `0.0` are
falsy. -/
def truthyFloat : Option PyFloat → Bool
  | none => false
  | some x => x.mantissa != 0

/-- Manual account inputs: the keys the account form (`app.py` lines
604-627) can store under `manual_inputs[account]`.  `none` means the key
is absent from the dictionary; `some s` means the key is present with
string value `s` (possibly empty). -/
structure ManualAccount where
  name : Option String := none
  currency : Option String := none
  region : Option String := none
  industry : Option String := none
  billing_city : Option String := none
  billing_country : Option String := none
  billing_state : Option String := none
deriving DecidableEq, Repr

/-- Manual contact inputs: the keys the contact form (`app.py` lines
682-701) can store under `manual_inputs[contact]`. -/
structure ManualContact where
  last_name : Option String := none
  title : Option String := none
  email : Option String := none
  first_name : Option String := none
  phone : Option String := none
deriving DecidableEq, Repr

/-- Manual opportunity inputs: the keys the opportunity form (`app.py`
lines 755-772) can store under `manual_inputs[opportunity]`.  The
`amount` entry is raw text typed by the user. -/
structure ManualOpportunity where
  name : Option String := none
  amount : Option String := none
  close_date : Option String := none
deriving DecidableEq, Repr

/-- The `manual_inputs` session dictionary (`app.py` lines 105-110). -/
structure ManualInputs where
  account : ManualAccount := {}
  contact : ManualContact := {}
  opportunity : ManualOpportunity := {}
deriving DecidableEq, Repr

/-- The `verified` session dictionary (`app.py` lines 112-117). -/
structure Verified where
  account : Bool := false
  contact : Bool := false
  opportunity : Bool := false
deriving DecidableEq, Repr

/-- One entry of the message log; `datetime.now()` timestamps are omitted
since no transition depends on them. -/
structure Message where
  role : String
  content : String
deriving DecidableEq, Repr

/-- The Streamlit session state relevant to the conversation state machine
(`app.py` lines 96-135). -/
structure AppState where
  conversation_stage : Stage := .transcript
  messages : List Message := []
  extracted_data : Option SalesCallData := none
  manual_inputs : ManualInputs := {}
  verified : Verified := {}
  transcript_uploaded : Bool := false
  chat_collection_mode : Bool := false
  chat_data_extracted : Bool := false
  questions_asked : List String := []
  current_question_category : Option String := none
  last_assistant_message : Option String := none
deriving DecidableEq, Repr

/-- Initial session state (`app.py` lines 96-135). -/
def initState : AppState := {}

/-- Branch of `get_missing_required_fields` (`app.py` lines 140-147) for
`entity_type == account`: a field is missing when the entity is absent or
the field value is falsy; results appear in declared order name, currency,
region. -/
def get_missing_required_fields_account : Option AccountData → List String
  | none => ["name", "currency", "region"]
  | some a =>
      (if truthyStr a.name then [] else ["name"]) ++
      (if truthyStr a.currency then [] else ["currency"]) ++
      (if truthyStr a.region then [] else ["region"])

/-- Branch of `get_missing_required_fields` (`app.py` lines 148-155) for
`entity_type == contact`: declared order last_name, title, email. -/
def get_missing_required_fields_contact : Option ContactData → List String
  | none => ["last_name", "title", "email"]
  | some c =>
      (if truthyStr c.last_name then [] else ["last_name"]) ++
      (if truthyStr c.title then [] else ["title"]) ++
      (if truthyStr c.email then [] else ["email"])

/-- Branch of `get_missing_required_fields` (`app.py` lines 156-163) for
`entity_type == opportunity`: declared order name, amount, close_date;
the amount test is Python float truthiness. -/
def get_missing_required_fields_opportunity : Option OpportunityData → List String
  | none => ["name", "amount", "close_date"]
  | some o =>
      (if truthyStr o.name then [] else ["name"]) ++
      (if truthyFloat o.amount then [] else ["amount"]) ++
      (if truthyStr o.close_date then [] else ["close_date"])

/-- Missing required fields organized by category, as returned by
`get_missing_required_fields_from_data` (`app.py` lines 400-425). -/
structure MissingMap where
  account : List String
  contact : List String
  opportunity : List String
deriving DecidableEq, Repr

/-- Embedding of `get_missing_required_fields_from_data` (`app.py` lines
400-425): each required field is appended exactly when the entity is absent
or the field value is falsy (`not call_data.x or not call_data.x.f`). -/
def get_missing_required_fields_from_data (cd : SalesCallData) : MissingMap where
  account :=
    (if truthyStr (cd.account.bind AccountData.name) then [] else ["name"]) ++
    (if truthyStr (cd.account.bind AccountData.currency) then [] else ["currency"]) ++
    (if truthyStr (cd.account.bind AccountData.region) then [] else ["region"])
  contact :=
    (if truthyStr (cd.contact.bind ContactData.last_name) then [] else ["last_name"]) ++
    (if truthyStr (cd.contact.bind ContactData.email) then [] else ["email"]) ++
    (if truthyStr (cd.contact.bind ContactData.title) then [] else ["title"])
  opportunity :=
    (if truthyStr (cd.opportunity.bind OpportunityData.name) then [] else ["name"]) ++
    (if truthyFloat (cd.opportunity.bind OpportunityData.amount) then [] else ["amount"]) ++
    (if truthyStr (cd.opportunity.bind OpportunityData.close_date) then [] else ["close_date"])

/-- Value of a digit string, models the integer part of `float()` input. -/
def digitsVal (cs : List Char) : Nat :=
  cs.foldl (fun a c => a * 10 + (c.toNat - 48)) 0

/-- Strip of leading and trailing whitespace at the character level,
models the whitespace tolerance of Python `float()`. -/
def stripChars (cs : List Char) : List Char :=
  ((cs.dropWhile Char.isWhitespace).reverse.dropWhile Char.isWhitespace).reverse

/-- Models the Python builtin `float()` applied to user-typed text: leading
and trailing whitespace is stripped, then an optional sign followed by
digits with an optional fractional part is accepted; anything else (and in
particular the empty string and non-numeric words) raises `ValueError`,
modelled as `none`.  Exponent notation and special forms such as `inf` are
omitted, as the UI inputs in question are plain decimal amounts. -/
def pyFloat (s : String) : Option PyFloat :=
  let t := stripChars s.data
  let sg : Int × List Char :=
    match t with
    | '-' :: r => (-1, r)
    | '+' :: r => (1, r)
    | r => (1, r)
  let ip := sg.2.takeWhile Char.isDigit
  let rest := sg.2.dropWhile Char.isDigit
  match rest with
  | [] => if ip.isEmpty then none else some ⟨sg.1 * (digitsVal ip : Int), 0⟩
  | '.' :: fr =>
      if fr.all Char.isDigit && !(ip.isEmpty && fr.isEmpty) then
        some ⟨sg.1 * ((digitsVal ip : Int) * (10 : Int) ^ fr.length + (digitsVal fr : Int)), fr.length⟩
      else none
  | _ => none

/-- Dictionary update applied by `merge_manual_inputs`
(`dict.update({k: v for k, v in manual.items() if v})`): a manual entry
overwrites the extracted value exactly when the entry is present and
truthy (non-empty); an absent or empty entry leaves the old value. -/
def updField (old mv : Option String) : Option String :=
  match mv with
  | some v => if v != "" then some v else old
  | none => old

/-- Python truthiness of the `manual_inputs[account]` dictionary: the
dictionary is truthy when it has at least one key. -/
def accountDictNonempty (m : ManualAccount) : Bool :=
  m.name.isSome || m.currency.isSome || m.region.isSome || m.industry.isSome ||
  m.billing_city.isSome || m.billing_country.isSome || m.billing_state.isSome

/-- Test `any(manual_inputs[account].values())`: some stored account
entry is truthy (non-empty). -/
def accountAnyTruthy (m : ManualAccount) : Bool :=
  truthyStr m.name || truthyStr m.currency || truthyStr m.region || truthyStr m.industry ||
  truthyStr m.billing_city || truthyStr m.billing_country || truthyStr m.billing_state

/-- Python truthiness of the `manual_inputs[contact]` dictionary. -/
def contactDictNonempty (m : ManualContact) : Bool :=
  m.last_name.isSome || m.title.isSome || m.email.isSome || m.first_name.isSome || m.phone.isSome

/-- Test `any(manual_inputs[contact].values())`. -/
def contactAnyTruthy (m : ManualContact) : Bool :=
  truthyStr m.last_name || truthyStr m.title || truthyStr m.email ||
  truthyStr m.first_name || truthyStr m.phone

/-- Python truthiness of the `manual_inputs[opportunity]` dictionary. -/
def opportunityDictNonempty (m : ManualOpportunity) : Bool :=
  m.name.isSome || m.amount.isSome || m.close_date.isSome

/-- Test `any(manual_inputs[opportunity].values())`. -/
def opportunityAnyTruthy (m : ManualOpportunity) : Bool :=
  truthyStr m.name || truthyStr m.amount || truthyStr m.close_date

/-- Account paragraph of `merge_manual_inputs` (`app.py` lines 179-185).
When an extracted account exists and the manual dictionary is non-empty,
truthy manual entries overwrite the extracted fields; when no extracted
account exists and some manual entry is truthy, a fresh `AccountData` is
built from the manual dictionary alone (absent keys fall back to the
pydantic defaults); otherwise the extracted value is kept as is. -/
def mergeAccount (m : ManualAccount) : Option AccountData → Option AccountData
  | some a =>
      if accountDictNonempty m then
        some { a with
          name := updField a.name m.name
          currency := updField a.currency m.currency
          region := updField a.region m.region
          industry := updField a.industry m.industry
          billing_city := updField a.billing_city m.billing_city
          billing_country := updField a.billing_country m.billing_country
          billing_state := updField a.billing_state m.billing_state }
      else some a
  | none =>
      if accountDictNonempty m && accountAnyTruthy m then
        some { name := m.name, currency := m.currency, region := m.region,
               industry := m.industry, billing_city := m.billing_city,
               billing_country := m.billing_country, billing_state := m.billing_state }
      else none

/-- Contact paragraph of `merge_manual_inputs` (`app.py` lines 188-194). -/
def mergeContact (m : ManualContact) : Option ContactData → Option ContactData
  | some c =>
      if contactDictNonempty m then
        some { c with
          last_name := updField c.last_name m.last_name
          title := updField c.title m.title
          email := updField c.email m.email
          first_name := updField c.first_name m.first_name
          phone := updField c.phone m.phone }
      else some c
  | none =>
      if contactDictNonempty m && contactAnyTruthy m then
        some { last_name := m.last_name, title := m.title, email := m.email,
               first_name := m.first_name, phone := m.phone }
      else none

/-- Opportunity paragraph of `merge_manual_inputs` (`app.py` lines
197-214).  With an extracted opportunity, a truthy manual amount is coerced
with `float()` inside `try/except` — on failure the extracted amount is
kept — and the remaining truthy manual entries overwrite their fields
(`k != amount` excludes the raw amount text from the generic update).
Without an extracted opportunity but with some truthy manual entry, the
manual dictionary itself is passed to the `OpportunityData` constructor: a
truthy amount entry is coerced first (`None` on failure), but a
present-and-empty amount entry bypasses the coercion guard and reaches
pydantic as the string `""`, which its float-field validation rejects —
modelled as `Except.error "ValidationError"`. -/
def mergeOpportunity (m : ManualOpportunity) :
    Option OpportunityData → Except String (Option OpportunityData)
  | some o =>
      if opportunityDictNonempty m then
        let amt : Option PyFloat :=
          match m.amount with
          | some v =>
              if v != "" then
                match pyFloat v with
                | some x => some x
                | none => o.amount
              else o.amount
          | none => o.amount
        .ok (some { o with
          amount := amt
          name := updField o.name m.name
          close_date := updField o.close_date m.close_date })
      else .ok (some o)
  | none =>
      if opportunityDictNonempty m && opportunityAnyTruthy m then
        match m.amount with
        | some v =>
            if v != "" then
              .ok (some { name := m.name, close_date := m.close_date, amount := pyFloat v })
            else .error "ValidationError"
        | none => .ok (some { name := m.name, close_date := m.close_date, amount := none })
      else .ok none

/-- Embedding of `merge_manual_inputs` (`app.py` lines 174-216): the three
entity paragraphs applied to a deep copy of the extracted data.  An
exception raised while rebuilding the opportunity (see `mergeOpportunity`)
aborts the whole merge, so the result is an `Except`. -/
def merge_manual_inputs (manual : ManualInputs) (cd : SalesCallData) :
    Except String SalesCallData :=
  match mergeOpportunity manual.opportunity cd.opportunity with
  | .error e => .error e
  | .ok o =>
      .ok { cd with
        account := mergeAccount manual.account cd.account
        contact := mergeContact manual.contact cd.contact
        opportunity := o }

/-- Literal question text for the account name, asked in several fallback
branches of the chat-collection handler. -/
def accountNameQuestion : String := "**What\x27s the name of the company or account?**"

/-- The `questions` mapping of `get_next_question` (`app.py` lines
441-451): question text for each of the nine required `(category, field)`
pairs, `none` for any other pair (`question_key in questions`). -/
def questionText : String → String → Option String
  | "account", "name" => some accountNameQuestion
  | "account", "currency" => some "**What currency should we use?** (e.g., USD, EUR, GBP)"
  | "account", "region" =>
      some "**What region is the company located in?** (e.g., North America, Europe, Asia-Pacific)"
  | "contact", "last_name" => some "**What\x27s the contact person\x27s last name?**"
  | "contact", "email" => some "**What\x27s the contact person\x27s email address?**"
  | "contact", "title" => some "**What\x27s the contact person\x27s job title?**"
  | "opportunity", "name" => some "**What\x27s the name of the opportunity or deal?**"
  | "opportunity", "amount" => some "**What\x27s the expected deal amount?** (e.g., 50000)"
  | "opportunity", "close_date" =>
      some "**What\x27s the expected close date?** (e.g., Q2 2025, or a specific date)"
  | _, _ => none

/-- Inner loop of `get_next_question` (`app.py` lines 454-459) for one
category: return the first missing field that has question text and whose
identifier `category_field` is not already in `questions_asked`. -/
def findQuestion (category : String) (asked : List String) :
    List String → Option (String × String × String)
  | [] => none
  | f :: rest =>
      match questionText category f with
      | some q =>
          if (category ++ "_" ++ f) ∈ asked then findQuestion category asked rest
          else some (category, f, q)
      | none => findQuestion category asked rest

/-- Embedding of `get_next_question` (`app.py` lines 427-461): with no
extraction yet, fall back to the account-name question unless already
asked; otherwise scan the missing required fields in the fixed priority
order account, contact, opportunity. -/
def get_next_question (cd : Option SalesCallData) (asked : List String) :
    Option (String × String × String) :=
  match cd with
  | none =>
      if "account_name" ∈ asked then none
      else some ("account", "name", accountNameQuestion)
  | some data =>
      let missing := get_missing_required_fields_from_data data
      match findQuestion "account" asked missing.account with
      | some r => some r
      | none =>
          match findQuestion "contact" asked missing.contact with
          | some r => some r
          | none => findQuestion "opportunity" asked missing.opportunity

/-- Python `s or d` for an optional string `s` and default `d`. -/
def pyOrStr (o : Option String) (d : String) : String :=
  match o with
  | some s => if s != "" then s else d
  | none => d

/-- Test that one character list starts with another. -/
def startsWithChars : List Char → List Char → Bool
  | [], _ => true
  | _ :: _, [] => false
  | a :: as, b :: bs => a == b && startsWithChars as bs

/-- Test that a character list occurs contiguously inside another. -/
def containsChars (pat : List Char) : List Char → Bool
  | [] => pat.isEmpty
  | b :: bs => startsWithChars pat (b :: bs) || containsChars pat bs

/-- Substring test, models Python `pat in s`. -/
def strContains (s pat : String) : Bool :=
  containsChars pat.data s.data

/-- Acknowledgment fragments built by the chat-collection handler
(`app.py` lines 487-497) from the freshly extracted record and the
question log. -/
def ackParts (e : SalesCallData) (asked : List String) : List String :=
  (if truthyStr (e.account.bind AccountData.name) &&
      (!("account_name" ∈ asked : Bool) || asked.count "account_name" == 1) then
     ["Company: " ++ (e.account.bind AccountData.name).getD ""]
   else []) ++
  (if truthyStr (e.contact.bind ContactData.last_name) &&
      (!("contact_last_name" ∈ asked : Bool) || asked.count "contact_last_name" == 1) then
     ["Contact: " ++ ((pyOrStr (e.contact.bind ContactData.first_name) "") ++ " " ++
        (e.contact.bind ContactData.last_name).getD "").trim]
   else []) ++
  (if truthyStr (e.opportunity.bind OpportunityData.name) &&
      (!("opportunity_name" ∈ asked : Bool) || asked.count "opportunity_name" == 1) then
     ["Opportunity: " ++ (e.opportunity.bind OpportunityData.name).getD ""]
   else [])

/-- Assistant message announcing that every required field is collected
(`app.py` line 525). -/
def allCollectedMsg : String :=
  "✅ I\x27ve collected all the necessary information. Let me organize it step by step.\n\nLet\x27s start with the **Account** information."

/-- Fallback message of `app.py` line 549. -/
def processingShortMsg : String :=
  "I\x27m processing your information. Could you provide more details?"

/-- Fallback message of `app.py` lines 551 and 553. -/
def processingLongMsg : String :=
  "I\x27m processing your information. Could you provide more details about the company, contact person, or opportunity?"

/-- Fallback message of the extraction-exception branch (`app.py` line 562). -/
def continueMsg : String :=
  "Thanks! Please continue providing information, and I\x27ll ask follow-up questions as needed."

/-- Outcome of the `process_call_transcript` collaborator call on a chat
turn: a successful call yields `result.get("extracted_data")` (possibly
`None`), and `exn` stands for a raised exception. -/
inductive ExtractResult where
  | ok (r : Option SalesCallData)
  | exn
deriving DecidableEq, Repr

/-- Embedding of the `STAGE_CHAT_COLLECTION` chat-input handler (`app.py`
lines 464-566).  The user message is appended, then the handler branches
on the extraction outcome: a non-empty extraction stores the snapshot and
either asks the single next question (appending its identifier to
`questions_asked` only when not already present) or announces completion
and advances to `STAGE_ACCOUNT`; an empty extraction or an exception falls
back to the account-name question, or to an informational message when
that question was already asked.  The stage changes only on completion. -/
def chat_collection_step (s₀ : AppState) (prompt : String) (ext : ExtractResult) : AppState :=
  let s : AppState := { s₀ with messages := s₀.messages ++ [⟨"user", prompt⟩] }
  match ext with
  | .ok (some e) =>
      let s : AppState := { s with extracted_data := some e, chat_data_extracted := true }
      let ack := ackParts e s.questions_asked
      match get_next_question (some e) s.questions_asked with
      | some (cat, field, qtext) =>
          let qid := cat ++ "_" ++ field
          if qid ∈ s.questions_asked then s
          else
            let ackStr := if ack ≠ [] then "Thanks! " ++ String.intercalate ", " ack ++ ". "
                          else "Got it! "
            let msg := ackStr ++ qtext
            { s with questions_asked := s.questions_asked ++ [qid]
                     current_question_category := some cat
                     messages := s.messages ++ [⟨"assistant", msg⟩]
                     last_assistant_message := some msg }
      | none =>
          let ackStr := if ack ≠ [] then "Perfect! " ++ String.intercalate ", " ack ++ ". "
                        else "Perfect! "
          let msg := ackStr ++ allCollectedMsg
          { s with messages := s.messages ++ [⟨"assistant", msg⟩]
                   last_assistant_message := some msg
                   conversation_stage := .account }
  | .ok none =>
      if "account_name" ∈ s.questions_asked then
        match s.extracted_data with
        | some prev =>
            match get_next_question (some prev) s.questions_asked with
            | some (cat, field, qtext) =>
                let qid := cat ++ "_" ++ field
                if qid ∈ s.questions_asked then
                  { s with messages := s.messages ++ [⟨"assistant", processingShortMsg⟩] }
                else
                  { s with questions_asked := s.questions_asked ++ [qid]
                           messages := s.messages ++ [⟨"assistant", qtext⟩]
                           last_assistant_message := some qtext }
            | none =>
                { s with messages := s.messages ++ [⟨"assistant", processingLongMsg⟩] }
        | none =>
            { s with messages := s.messages ++ [⟨"assistant", processingLongMsg⟩] }
      else
        { s with messages := s.messages ++ [⟨"assistant", accountNameQuestion⟩]
                 questions_asked := s.questions_asked ++ ["account_name"]
                 last_assistant_message := some accountNameQuestion }
  | .exn =>
      if "account_name" ∈ s.questions_asked then
        { s with messages := s.messages ++ [⟨"assistant", continueMsg⟩]
                 last_assistant_message := some continueMsg }
      else
        { s with messages := s.messages ++ [⟨"assistant", accountNameQuestion⟩]
                 questions_asked := s.questions_asked ++ ["account_name"]
                 last_assistant_message := some accountNameQuestion }

/-- Embedding of the "Provide Info in Chat" button handler (`app.py`
lines 385-395): switch to chat collection with a fresh question log, and
unless an earlier message already mentions providing info through chat,
seed the conversation and mark the account-name question as asked. -/
def provide_info_in_chat_button (s₀ : AppState) : AppState :=
  let s : AppState := { s₀ with chat_collection_mode := true,
                                conversation_stage := .chat_collection,
                                questions_asked := [],
                                current_question_category := none }
  if s.messages.any (fun msg =>
      strContains msg.content.toLower "chat" && strContains msg.content.toLower "information") then
    s
  else
    { s with messages := s.messages ++
        [⟨"user", "I\x27d like to provide information through chat"⟩,
         ⟨"assistant", "Great! I\x27ll guide you through collecting all the information we need. Let me start by asking you a few questions.\n\n" ++ accountNameQuestion⟩]
             questions_asked := s.questions_asked ++ ["account_name"]
             current_question_category := some "account" }

/-- Embedding of the initial-question block of `STAGE_CHAT_COLLECTION`
(`app.py` lines 569-578): on first load, ask the account-name question
once, guarded by the question log and the message log. -/
def initial_question_block (s : AppState) : AppState :=
  if s.messages.isEmpty || !(s.messages.any (fun m => m.role == "user")) then
    if "account_name" ∈ s.questions_asked then s
    else if s.messages.any (fun m => strContains m.content "What\x27s the name of the company") then s
    else
      { s with messages := s.messages ++ [⟨"assistant", accountNameQuestion⟩]
               questions_asked := s.questions_asked ++ ["account_name"]
               current_question_category := some "account"
               last_assistant_message := some accountNameQuestion }
  else s

/-- Editing stage of a category (`STAGE_ACCOUNT`, `STAGE_CONTACT`,
`STAGE_OPPORTUNITY`). -/
def editStageOf : Category → Stage
  | .account => .account
  | .contact => .contact
  | .opportunity => .opportunity

/-- Verification stage of a category. -/
def verifyStageOf : Category → Stage
  | .account => .account_verify
  | .contact => .contact_verify
  | .opportunity => .opportunity_verify

/-- Verified flag of a category. -/
def verifiedFlag : Category → Verified → Bool
  | .account, v => v.account
  | .contact, v => v.contact
  | .opportunity, v => v.opportunity

/-- Embedding of the "Edit" buttons of the three verification stages
(`app.py` lines 656-659, 729-732, 800-803): each handler assigns the
category\x27s editing stage to `conversation_stage` and reruns; nothing
else in the session state is touched. -/
def edit_button : Category → AppState → AppState
  | .account, s => { s with conversation_stage := .account }
  | .contact, s => { s with conversation_stage := .contact }
  | .opportunity, s => { s with conversation_stage := .opportunity }

/-- Dictionary update `manual_inputs[account].update(manual_account)`
performed on form submit: every key present in the submitted form
overwrites the stored entry (even with an empty string); absent keys keep
their stored value. -/
def updateManualAccount (old m : ManualAccount) : ManualAccount where
  name := m.name.orElse fun _ => old.name
  currency := m.currency.orElse fun _ => old.currency
  region := m.region.orElse fun _ => old.region
  industry := m.industry.orElse fun _ => old.industry
  billing_city := m.billing_city.orElse fun _ => old.billing_city
  billing_country := m.billing_country.orElse fun _ => old.billing_country
  billing_state := m.billing_state.orElse fun _ => old.billing_state

/-- Dictionary update `manual_inputs[contact].update(manual_contact)`. -/
def updateManualContact (old m : ManualContact) : ManualContact where
  last_name := m.last_name.orElse fun _ => old.last_name
  title := m.title.orElse fun _ => old.title
  email := m.email.orElse fun _ => old.email
  first_name := m.first_name.orElse fun _ => old.first_name
  phone := m.phone.orElse fun _ => old.phone

/-- Dictionary update `manual_inputs[opportunity].update(manual_opportunity)`. -/
def updateManualOpportunity (old m : ManualOpportunity) : ManualOpportunity where
  name := m.name.orElse fun _ => old.name
  amount := m.amount.orElse fun _ => old.amount
  close_date := m.close_date.orElse fun _ => old.close_date

/-- Embedding of the `STAGE_ACCOUNT` handler (`app.py` lines 581-637).
The merged record is recomputed; when required account fields are missing,
a form submit (`submit = some m`) stores the typed values and
unconditionally moves to `STAGE_ACCOUNT_VERIFY`; with no missing fields
the stage auto-advances to `STAGE_ACCOUNT_VERIFY` while the account is
unverified.  A merge exception leaves the state unchanged (the rerun dies
before mutating the session).  Message-log bookkeeping other than the
"fields saved" entry is omitted as no transition depends on it. -/
def account_stage_step (s : AppState) (submit : Option ManualAccount) : AppState :=
  match s.extracted_data with
  | none => s
  | some cd =>
      match merge_manual_inputs s.manual_inputs cd with
      | .error _ => s
      | .ok merged =>
          if get_missing_required_fields_account merged.account ≠ [] then
            match submit with
            | some m =>
                { s with manual_inputs :=
                    { s.manual_inputs with account := updateManualAccount s.manual_inputs.account m }
                         messages := s.messages ++ [⟨"user", "✅ Account fields saved"⟩]
                         conversation_stage := .account_verify }
            | none => s
          else if s.verified.account = false then
            { s with conversation_stage := .account_verify }
          else s

/-- Embedding of the `STAGE_CONTACT` handler (`app.py` lines 662-710),
analogous to `account_stage_step`. -/
def contact_stage_step (s : AppState) (submit : Option ManualContact) : AppState :=
  match s.extracted_data with
  | none => s
  | some cd =>
      match merge_manual_inputs s.manual_inputs cd with
      | .error _ => s
      | .ok merged =>
          if get_missing_required_fields_contact merged.contact ≠ [] then
            match submit with
            | some m =>
                { s with manual_inputs :=
                    { s.manual_inputs with contact := updateManualContact s.manual_inputs.contact m }
                         messages := s.messages ++ [⟨"user", "✅ Contact fields saved"⟩]
                         conversation_stage := .contact_verify }
            | none => s
          else if s.verified.contact = false then
            { s with conversation_stage := .contact_verify }
          else s

/-- Embedding of the `STAGE_OPPORTUNITY` handler (`app.py` lines 735-781),
analogous to `account_stage_step`. -/
def opportunity_stage_step (s : AppState) (submit : Option ManualOpportunity) : AppState :=
  match s.extracted_data with
  | none => s
  | some cd =>
      match merge_manual_inputs s.manual_inputs cd with
      | .error _ => s
      | .ok merged =>
          if get_missing_required_fields_opportunity merged.opportunity ≠ [] then
            match submit with
            | some m =>
                { s with manual_inputs :=
                    { s.manual_inputs with opportunity := updateManualOpportunity s.manual_inputs.opportunity m }
                         messages := s.messages ++ [⟨"user", "✅ Opportunity fields saved"⟩]
                         conversation_stage := .opportunity_verify }
            | none => s
          else if s.verified.opportunity = false then
            { s with conversation_stage := .opportunity_verify }
          else s

/-! Concrete sample inputs used by counterexamples and witnesses. -/

/-- Session state in `STAGE_ACCOUNT_VERIFY` with all three categories
verified and some extracted data. -/
def c1State : AppState :=
  { conversation_stage := .account_verify
    verified := { account := true, contact := true, opportunity := true }
    extracted_data := some { transcript := "t" } }

/-- Extracted record with no entities at all. -/
def c2Data : SalesCallData := { transcript := "t" }

/-- Session state in `STAGE_ACCOUNT` whose extraction produced no account. -/
def c2State : AppState :=
  { conversation_stage := .account
    extracted_data := some c2Data }

/-- Account form submission in which the user left every input blank. -/
def c2Form : ManualAccount :=
  { name := some "", currency := some "", region := some "",
    industry := some "", billing_city := some "", billing_country := some "",
    billing_state := some "" }

/-- Extracted record whose account name is a whitespace-only string. -/
def c3Data : SalesCallData :=
  { account := some { name := some " " }, transcript := "t" }

/-- Extracted opportunity with a present numeric amount. -/
def c4Opp : OpportunityData := { amount := some ⟨50000, 0⟩ }

/-- Manual opportunity inputs holding a non-empty but unparsable amount. -/
def c4Form : ManualOpportunity := { amount := some "abc" }

/-- Manual opportunity inputs as stored after the user fills only the name
in the opportunity form, leaving amount and close date blank. -/
def c5Form : ManualOpportunity :=
  { name := some "Acme - Deal", amount := some "", close_date := some "" }

/-- Extracted opportunity used by the coercion witness. -/
def c6Opp : OpportunityData := { amount := some ⟨75000, 0⟩ }

/-- Manual opportunity inputs with an unparsable amount text. -/
def c6Form : ManualOpportunity := { amount := some "abc" }

/-- Extracted record with complete account and contact required fields and
no opportunity, so that only opportunity questions remain. -/
def c7Data : SalesCallData :=
  { account := some { name := some "A", currency := some "USD", region := some "EU" }
    contact := some { last_name := some "Doe", email := some "doe@example.com", title := some "CTO" }
    transcript := "t" }

/-- Chat-collection state with one question already asked. -/
def c8State : AppState :=
  { conversation_stage := .chat_collection
    questions_asked := ["account_name"] }

/-- Extraction result used by the invariant witness. -/
def c8Data : SalesCallData :=
  { account := some { name := some "Acme" }, transcript := "t" }

/-- Chat-collection state with an empty question log. -/
def c9State : AppState :=
  { conversation_stage := .chat_collection }

/-- Extracted record lacking every entity. -/
def c10Data : SalesCallData := { transcript := "t" }

/-- Manual inputs whose stored entries are all empty strings. -/
def c10Manual : ManualInputs :=
  { account := { name := some "" }
    contact := { last_name := some "" }
    opportunity := { amount := some "" } }

/-! Helper lemmas shared by the claim theorems. -/

theorem truthyStr_of_isSome_eq_false {o : Option String} (h : o.isSome = false) :
    truthyStr o = false := by
  cases o with
  | none => rfl
  | some v => simp at h

theorem updField_eq (old mv : Option String) :
    updField old mv = if truthyStr mv then mv else old := by
  cases mv with
  | none => simp [updField, truthyStr]
  | some v =>
      by_cases h : v = "" <;> simp [updField, truthyStr, h]

/-! Claim C1. -/

/-- Claim C1, counterexample: in `STAGE_ACCOUNT_VERIFY` with all three
categories verified, pressing "Edit Account" moves the stage to
`STAGE_ACCOUNT` but does NOT set `verified[account]` to false — the
handler (`app.py` lines 656-659) only assigns the stage.  The claimed
conjunction (stage moves, the category flag clears, the other flags are
untouched) is therefore false at this input. -/
theorem edit_button_claim_false_at_c1State :
    ¬ ((edit_button .account c1State).conversation_stage = Stage.account ∧
       (edit_button .account c1State).verified.account = false ∧
       (edit_button .account c1State).verified.contact = c1State.verified.contact ∧
       (edit_button .account c1State).verified.opportunity = c1State.verified.opportunity) := by
  intro h
  have hv : (edit_button .account c1State).verified.account = true := rfl
  rw [hv] at h
  exact absurd h.2.1 (by simp)

/-- Claim C1, amended: for every entity category, pressing the explicit
"edit" action in that category\x27s `_VERIFY` stage moves the stage to the
same category\x27s `_EDIT` stage and leaves the whole `verified` map
unchanged — in particular `verified[category]` is NOT cleared. -/
theorem edit_button_moves_stage_preserves_verified (c : Category) (s : AppState)
    (h : s.conversation_stage = verifyStageOf c) :
    (edit_button c s).conversation_stage = editStageOf c ∧
    (edit_button c s).verified = s.verified := by
  cases c <;> exact ⟨rfl, rfl⟩

/-- Claim C1, witness: the amended theorem applied to the concrete
verified state `c1State`. -/
theorem edit_button_moves_stage_preserves_verified_witness :
    c1State.conversation_stage = verifyStageOf Category.account ∧
    ((edit_button Category.account c1State).conversation_stage = editStageOf Category.account ∧
     (edit_button Category.account c1State).verified = c1State.verified) :=
  ⟨rfl, edit_button_moves_stage_preserves_verified Category.account c1State rfl⟩

/-! Claim C2. -/

/-- Claim C2, counterexample: in `STAGE_ACCOUNT` with no extracted account
and an all-blank form submission, the save handler (`app.py` lines
628-632) still advances the stage to `STAGE_ACCOUNT_VERIFY`, although the
merged combined record still misses all three required account fields.
The claimed "transitions to `_VERIFY` only when the merged record has zero
missing required fields" is therefore false at this input. -/
theorem account_save_advances_despite_missing :
    (account_stage_step c2State (some c2Form)).conversation_stage = Stage.account_verify ∧
    (merge_manual_inputs (account_stage_step c2State (some c2Form)).manual_inputs c2Data).map
      (fun r => get_missing_required_fields_account r.account) =
      .ok ["name", "currency", "region"] := by
  exact ⟨rfl, rfl⟩

/-- Claim C2, amended: for every entity category, the `_EDIT` stage
auto-advances to the same-category `_VERIFY` stage when the merged
combined record has zero missing required fields for that category and the
category is not yet verified; a form save, however, advances the stage to
`_VERIFY` unconditionally — the missing-fields check is not re-run after
the save, so a save that leaves a required field empty still advances. -/
theorem edit_stage_transition_rules (s : AppState) (cd merged : SalesCallData)
    (h1 : s.extracted_data = some cd)
    (h2 : merge_manual_inputs s.manual_inputs cd = .ok merged) :
    ((get_missing_required_fields_account merged.account ≠ [] →
        ∀ m : ManualAccount,
          (account_stage_step s (some m)).conversation_stage = Stage.account_verify) ∧
     (get_missing_required_fields_account merged.account = [] → s.verified.account = false →
        (account_stage_step s none).conversation_stage = Stage.account_verify)) ∧
    ((get_missing_required_fields_contact merged.contact ≠ [] →
        ∀ m : ManualContact,
          (contact_stage_step s (some m)).conversation_stage = Stage.contact_verify) ∧
     (get_missing_required_fields_contact merged.contact = [] → s.verified.contact = false →
        (contact_stage_step s none).conversation_stage = Stage.contact_verify)) ∧
    ((get_missing_required_fields_opportunity merged.opportunity ≠ [] →
        ∀ m : ManualOpportunity,
          (opportunity_stage_step s (some m)).conversation_stage = Stage.opportunity_verify) ∧
     (get_missing_required_fields_opportunity merged.opportunity = [] →
        s.verified.opportunity = false →
        (opportunity_stage_step s none).conversation_stage = Stage.opportunity_verify)) := by
  refine ⟨⟨fun hm m => ?_, fun hm hv => ?_⟩, ⟨fun hm m => ?_, fun hm hv => ?_⟩,
          ⟨fun hm m => ?_, fun hm hv => ?_⟩⟩
  · simp [account_stage_step, h1, h2, hm]
  · simp [account_stage_step, h1, h2, hm, hv]
  · simp [contact_stage_step, h1, h2, hm]
  · simp [contact_stage_step, h1, h2, hm, hv]
  · simp [opportunity_stage_step, h1, h2, hm]
  · simp [opportunity_stage_step, h1, h2, hm, hv]

/-- Claim C2, witness: the amended theorem applied to the concrete state
`c2State`, whose merged record misses every account field. -/
theorem edit_stage_transition_rules_witness :
    get_missing_required_fields_account c2Data.account ≠ [] ∧
    (account_stage_step c2State (some c2Form)).conversation_stage = Stage.account_verify :=
  ⟨by decide,
   (edit_stage_transition_rules c2State c2Data c2Data rfl rfl).1.1 (by decide) c2Form⟩

/-! Claim C3. -/

/-- Claim C3, counterexample: the account name `" "` (a whitespace-only
string) is truthy in Python, so `get_missing_required_fields_from_data`
(`app.py` lines 407-412) does not report `name` as missing — no trimming
is applied, contradicting the claim that a whitespace-only value is
reported as missing.  The second conjunct records that the whitespace-only
string is treated as a present (truthy) value. -/
theorem whitespace_name_counted_as_present :
    (get_missing_required_fields_from_data c3Data).account = ["currency", "region"] ∧
    truthyStr (some " ") = true := by
  exact ⟨rfl, rfl⟩

/-- Membership of the first candidate in a three-chunk conditional list. -/
theorem mem_chunk₁ (x y z : String) (b1 b2 b3 : Bool) (hxy : x ≠ y) (hxz : x ≠ z) :
    (x ∈ (if b1 then [] else [x]) ++ (if b2 then [] else [y]) ++ (if b3 then [] else [z])) ↔
      b1 = false := by
  cases b1 <;> cases b2 <;> cases b3 <;> simp [hxy, hxz]

/-- Membership of the second candidate in a three-chunk conditional list. -/
theorem mem_chunk₂ (x y z : String) (b1 b2 b3 : Bool) (hyx : y ≠ x) (hyz : y ≠ z) :
    (y ∈ (if b1 then [] else [x]) ++ (if b2 then [] else [y]) ++ (if b3 then [] else [z])) ↔
      b2 = false := by
  cases b1 <;> cases b2 <;> cases b3 <;> simp [hyx, hyz]

/-- Membership of the third candidate in a three-chunk conditional list. -/
theorem mem_chunk₃ (x y z : String) (b1 b2 b3 : Bool) (hzx : z ≠ x) (hzy : z ≠ y) :
    (z ∈ (if b1 then [] else [x]) ++ (if b2 then [] else [y]) ++ (if b3 then [] else [z])) ↔
      b3 = false := by
  cases b1 <;> cases b2 <;> cases b3 <;> simp [hzx, hzy]

/-- Claim C3, amended: in the missing-required-fields computation that
drives `next_question`, a field counts as present exactly when its value
is truthy — non-null and non-empty, and for the numeric amount non-null
and non-zero — with no whitespace trimming, so a field whose value is a
whitespace-only string counts as present, not missing. -/
theorem missing_fields_follow_truthiness (cd : SalesCallData) :
    ("name" ∈ (get_missing_required_fields_from_data cd).account ↔
       truthyStr (cd.account.bind AccountData.name) = false) ∧
    ("currency" ∈ (get_missing_required_fields_from_data cd).account ↔
       truthyStr (cd.account.bind AccountData.currency) = false) ∧
    ("region" ∈ (get_missing_required_fields_from_data cd).account ↔
       truthyStr (cd.account.bind AccountData.region) = false) ∧
    ("last_name" ∈ (get_missing_required_fields_from_data cd).contact ↔
       truthyStr (cd.contact.bind ContactData.last_name) = false) ∧
    ("email" ∈ (get_missing_required_fields_from_data cd).contact ↔
       truthyStr (cd.contact.bind ContactData.email) = false) ∧
    ("title" ∈ (get_missing_required_fields_from_data cd).contact ↔
       truthyStr (cd.contact.bind ContactData.title) = false) ∧
    ("name" ∈ (get_missing_required_fields_from_data cd).opportunity ↔
       truthyStr (cd.opportunity.bind OpportunityData.name) = false) ∧
    ("amount" ∈ (get_missing_required_fields_from_data cd).opportunity ↔
       truthyFloat (cd.opportunity.bind OpportunityData.amount) = false) ∧
    ("close_date" ∈ (get_missing_required_fields_from_data cd).opportunity ↔
       truthyStr (cd.opportunity.bind OpportunityData.close_date) = false) ∧
    (∀ s : String, truthyStr (some s) = true ↔ s ≠ "") := by
  refine ⟨?_, ?_, ?_, ?_, ?_, ?_, ?_, ?_, ?_, fun s => by simp [truthyStr]⟩
  · exact mem_chunk₁ _ _ _ _ _ _ (by decide) (by decide)
  · exact mem_chunk₂ _ _ _ _ _ _ (by decide) (by decide)
  · exact mem_chunk₃ _ _ _ _ _ _ (by decide) (by decide)
  · exact mem_chunk₁ _ _ _ _ _ _ (by decide) (by decide)
  · exact mem_chunk₂ _ _ _ _ _ _ (by decide) (by decide)
  · exact mem_chunk₃ _ _ _ _ _ _ (by decide) (by decide)
  · exact mem_chunk₁ _ _ _ _ _ _ (by decide) (by decide)
  · exact mem_chunk₂ _ _ _ _ _ _ (by decide) (by decide)
  · exact mem_chunk₃ _ _ _ _ _ _ (by decide) (by decide)

/-! Claim C4. -/

/-- An empty `manual_inputs[account]` dictionary has no entries. -/
theorem accountDict_false {m : ManualAccount} (h : accountDictNonempty m = false) :
    m.name = none ∧ m.currency = none ∧ m.region = none ∧ m.industry = none ∧
    m.billing_city = none ∧ m.billing_country = none ∧ m.billing_state = none := by
  simp [accountDictNonempty] at h
  tauto

/-- An empty `manual_inputs[contact]` dictionary has no entries. -/
theorem contactDict_false {m : ManualContact} (h : contactDictNonempty m = false) :
    m.last_name = none ∧ m.title = none ∧ m.email = none ∧ m.first_name = none ∧
    m.phone = none := by
  simp [contactDictNonempty] at h
  tauto

/-- An empty `manual_inputs[opportunity]` dictionary has no entries. -/
theorem opportunityDict_false {m : ManualOpportunity} (h : opportunityDictNonempty m = false) :
    m.name = none ∧ m.amount = none ∧ m.close_date = none := by
  simp [opportunityDictNonempty] at h
  tauto

/-- Closed form of the account merge when an extracted account exists:
every manual-settable field follows the "non-empty manual wins, otherwise
extracted" rule, whether or not the manual dictionary is empty. -/
theorem mergeAccount_some_eq (m : ManualAccount) (a : AccountData) :
    mergeAccount m (some a) = some { a with
      name := if truthyStr m.name then m.name else a.name
      currency := if truthyStr m.currency then m.currency else a.currency
      region := if truthyStr m.region then m.region else a.region
      industry := if truthyStr m.industry then m.industry else a.industry
      billing_city := if truthyStr m.billing_city then m.billing_city else a.billing_city
      billing_country := if truthyStr m.billing_country then m.billing_country else a.billing_country
      billing_state := if truthyStr m.billing_state then m.billing_state else a.billing_state } := by
  by_cases hd : accountDictNonempty m = true
  · simp [mergeAccount, hd, updField_eq]
  · have hf := accountDict_false (by simpa using hd)
    obtain ⟨h1, h2, h3, h4, h5, h6, h7⟩ := hf
    simp [mergeAccount, hd, h1, h2, h3, h4, h5, h6, h7, truthyStr]

/-- Closed form of the contact merge when an extracted contact exists. -/
theorem mergeContact_some_eq (m : ManualContact) (c : ContactData) :
    mergeContact m (some c) = some { c with
      last_name := if truthyStr m.last_name then m.last_name else c.last_name
      title := if truthyStr m.title then m.title else c.title
      email := if truthyStr m.email then m.email else c.email
      first_name := if truthyStr m.first_name then m.first_name else c.first_name
      phone := if truthyStr m.phone then m.phone else c.phone } := by
  by_cases hd : contactDictNonempty m = true
  · simp [mergeContact, hd, updField_eq]
  · have hf := contactDict_false (by simpa using hd)
    obtain ⟨h1, h2, h3, h4, h5⟩ := hf
    simp [mergeContact, hd, h1, h2, h3, h4, h5, truthyStr]

/-- Closed form of the opportunity merge when an extracted opportunity
exists: string fields follow the "non-empty manual wins" rule, the amount
follows the guarded `float()` coercion. -/
theorem mergeOpportunity_some_eq (m : ManualOpportunity) (o : OpportunityData) :
    mergeOpportunity m (some o) = .ok (some { o with
      name := if truthyStr m.name then m.name else o.name
      close_date := if truthyStr m.close_date then m.close_date else o.close_date
      amount :=
        match m.amount with
        | some v =>
            if v != "" then
              match pyFloat v with
              | some x => some x
              | none => o.amount
            else o.amount
        | none => o.amount }) := by
  by_cases hd : opportunityDictNonempty m = true
  · simp [mergeOpportunity, hd, updField_eq]
  · have hf := opportunityDict_false (by simpa using hd)
    obtain ⟨h1, h2, h3⟩ := hf
    simp [mergeOpportunity, hd, h1, h2, h3, truthyStr]

/-- Claim C4, counterexample: with an extracted amount of `50000.0` and
the non-empty manual amount text `"abc"`, the merged amount keeps the
extracted `50000.0` — it equals neither the manual text (the numeric field
cannot hold it) nor its coercion (`float("abc")` fails), so "each field
... equals the manual value when that manual value is non-empty" is false
at this input. -/
theorem manual_amount_text_not_taken :
    mergeOpportunity c4Form (some c4Opp) = .ok (some c4Opp) ∧
    c4Form.amount = some "abc" ∧ ("abc" : String) ≠ "" ∧
    pyFloat "abc" = none ∧ c4Opp.amount = some ⟨50000, 0⟩ := by
  exact ⟨rfl, rfl, by decide, by decide, rfl⟩

/-- Claim C4, amended: for every extracted record containing an entity of
a category and every manual-input map for that category, each string field
of the merged entity equals the manual value when that manual value is
non-empty and equals the extracted value otherwise; the opportunity amount
instead equals the `float()`-parse of a non-empty manual amount when
parsing succeeds and keeps the extracted value otherwise — in all cases an
empty/falsy manual value never overwrites a present extracted value. -/
theorem merge_entity_precedence (a : AccountData) (c : ContactData) (o : OpportunityData)
    (ma : ManualAccount) (mc : ManualContact) (mo : ManualOpportunity) :
    (∃ a', mergeAccount ma (some a) = some a' ∧
       a'.name = (if truthyStr ma.name then ma.name else a.name) ∧
       a'.currency = (if truthyStr ma.currency then ma.currency else a.currency) ∧
       a'.region = (if truthyStr ma.region then ma.region else a.region) ∧
       a'.industry = (if truthyStr ma.industry then ma.industry else a.industry) ∧
       a'.billing_city = (if truthyStr ma.billing_city then ma.billing_city else a.billing_city) ∧
       a'.billing_country = (if truthyStr ma.billing_country then ma.billing_country else a.billing_country) ∧
       a'.billing_state = (if truthyStr ma.billing_state then ma.billing_state else a.billing_state) ∧
       a'.website = a.website ∧ a'.annual_revenue = a.annual_revenue ∧
       a'.number_of_employees = a.number_of_employees ∧ a'.segment = a.segment ∧
       a'.record_type = a.record_type) ∧
    (∃ c', mergeContact mc (some c) = some c' ∧
       c'.last_name = (if truthyStr mc.last_name then mc.last_name else c.last_name) ∧
       c'.title = (if truthyStr mc.title then mc.title else c.title) ∧
       c'.email = (if truthyStr mc.email then mc.email else c.email) ∧
       c'.first_name = (if truthyStr mc.first_name then mc.first_name else c.first_name) ∧
       c'.phone = (if truthyStr mc.phone then mc.phone else c.phone) ∧
       c'.record_type = c.record_type ∧ c'.currency = c.currency) ∧
    (∃ o', mergeOpportunity mo (some o) = .ok (some o') ∧
       o'.name = (if truthyStr mo.name then mo.name else o.name) ∧
       o'.close_date = (if truthyStr mo.close_date then mo.close_date else o.close_date) ∧
       (truthyStr mo.amount = false → o'.amount = o.amount) ∧
       (∀ v, mo.amount = some v → v ≠ "" →
          o'.amount = (match pyFloat v with | some x => some x | none => o.amount)) ∧
       o'.stage = o.stage ∧ o'.forecast_category = o.forecast_category ∧
       o'.probability = o.probability ∧ o'.deal_summary = o.deal_summary ∧
       o'.next_steps = o.next_steps ∧ o'.description = o.description ∧
       o'.lead_source = o.lead_source ∧ o'.meddic = o.meddic ∧
       o'.type = o.type ∧ o'.practice = o.practice ∧ o'.region = o.region ∧
       o'.currency = o.currency ∧ o'.projected_start_date = o.projected_start_date ∧
       o'.number_of_weeks = o.number_of_weeks) := by
  refine ⟨⟨_, mergeAccount_some_eq ma a, rfl, rfl, rfl, rfl, rfl, rfl, rfl, rfl, rfl,
            rfl, rfl, rfl⟩,
          ⟨_, mergeContact_some_eq mc c, rfl, rfl, rfl, rfl, rfl, rfl, rfl⟩,
          ⟨_, mergeOpportunity_some_eq mo o, rfl, rfl, ?_, ?_,
            rfl, rfl, rfl, rfl, rfl, rfl, rfl, rfl, rfl, rfl, rfl, rfl, rfl, rfl⟩⟩
  · intro ht
    cases hmo : mo.amount with
    | none => simp
    | some v =>
        have hv : v = "" := by
          simpa [truthyStr, hmo] using ht
        simp [hmo, hv]
  · intro v hv hne
    simp [hv, hne]

/-! Claim C5. -/

/-- Claim C5 (code bug): with no extracted opportunity and the stored
manual entries `{name: "Acme - Deal", amount: "", close_date: ""}` — the
state the opportunity form leaves behind when the user fills only the name
— the manual inputs contain a non-empty entry, yet the merge does not
synthesize an opportunity: the present-but-empty `amount` entry bypasses
the truthiness-guarded `float()` coercion (`app.py` lines 209-213) and
reaches the pydantic float field as `""`, raising a `ValidationError`
instead.  The guarded `try/except` shows the code intends to discard bad
amount text, so this is a slip, not a design.  The last conjunct records
that the account instance of the claim (the spec\x27s own example) does
hold: manual `{name: "Acme"}` synthesizes an account whose name is "Acme"
and whose other fields are absent. -/
theorem empty_amount_entry_breaks_synthesis :
    opportunityAnyTruthy c5Form = true ∧
    mergeOpportunity c5Form none = .error "ValidationError" ∧
    mergeAccount { name := some "Acme" } none = some { name := some "Acme" } := by
  exact ⟨rfl, rfl, rfl⟩

/-! Claim C6. -/

/-- Claim C6: a non-empty manual opportunity amount is `float()`-parsed;
on success the merged amount is the parsed number, and on failure the raw
text is dropped — the extracted amount is kept when an extracted
opportunity exists, and the amount is absent in the synthesis branch.  The
unparsable string itself can never reach the numeric amount field. -/
theorem amount_coercion_behaviour (o : OpportunityData) (m : ManualOpportunity) (v : String)
    (hm : m.amount = some v) (hv : v ≠ "") :
    (∀ x, pyFloat v = some x →
       mergeOpportunity m (some o) = .ok (some { o with
         name := if truthyStr m.name then m.name else o.name
         close_date := if truthyStr m.close_date then m.close_date else o.close_date
         amount := some x })) ∧
    (pyFloat v = none →
       mergeOpportunity m (some o) = .ok (some { o with
         name := if truthyStr m.name then m.name else o.name
         close_date := if truthyStr m.close_date then m.close_date else o.close_date
         amount := o.amount })) ∧
    (pyFloat v = none →
       mergeOpportunity m none =
         .ok (some { name := m.name, close_date := m.close_date, amount := none })) ∧
    (∀ x, pyFloat v = some x →
       mergeOpportunity m none =
         .ok (some { name := m.name, close_date := m.close_date, amount := some x })) := by
  have hd : opportunityDictNonempty m = true := by
    simp [opportunityDictNonempty, hm]
  have ha : opportunityAnyTruthy m = true := by
    simp [opportunityAnyTruthy, hm, truthyStr, hv]
  refine ⟨fun x hp => ?_, fun hp => ?_, fun hp => ?_, fun x hp => ?_⟩
  · rw [mergeOpportunity_some_eq]
    simp [hm, hv, hp]
  · rw [mergeOpportunity_some_eq]
    simp [hm, hv, hp]
  · simp [mergeOpportunity, hd, ha, hm, hv, hp]
  · simp [mergeOpportunity, hd, ha, hm, hv, hp]

/-- Claim C6, witness: the coercion theorem applied to the unparsable
manual amount "abc" with the extracted amount `75000.0`, which is
retained. -/
theorem amount_coercion_behaviour_witness :
    c6Form.amount = some "abc" ∧
    mergeOpportunity c6Form (some c6Opp) = .ok (some c6Opp) ∧
    c6Opp.amount = some ⟨75000, 0⟩ :=
  ⟨rfl,
   (amount_coercion_behaviour c6Opp c6Form "abc" rfl (by decide)).2.1 (by decide),
   rfl⟩

/-! Claim C7. -/

/-- When the scan of one category finds nothing, every missing field of
that category that has question text was already asked. -/
theorem findQuestion_eq_none {c : String} {asked : List String} :
    ∀ {fs : List String}, findQuestion c asked fs = none →
      ∀ f ∈ fs, (questionText c f).isSome = true → (c ++ "_" ++ f) ∈ asked := by
  intro fs
  induction fs with
  | nil =>
      intro _ f hf
      exact absurd hf (List.not_mem_nil f)
  | cons g rest ih =>
      intro h f hf hq
      rcases hg : questionText c g with _ | q0
      · simp only [findQuestion, hg] at h
        rcases List.mem_cons.mp hf with rfl | hf'
        · rw [hg] at hq
          simp at hq
        · exact ih h f hf' hq
      · simp only [findQuestion, hg] at h
        by_cases hmem : (c ++ "_" ++ g) ∈ asked
        · rw [if_pos hmem] at h
          rcases List.mem_cons.mp hf with rfl | hf'
          · exact hmem
          · exact ih h f hf' hq
        · rw [if_neg hmem] at h
          exact absurd h (by simp)

/-- A successful scan returns its own category and a not-yet-asked
identifier. -/
theorem findQuestion_eq_some {c : String} {asked : List String} {c' f q : String} :
    ∀ {fs : List String}, findQuestion c asked fs = some (c', f, q) →
      c' = c ∧ (c ++ "_" ++ f) ∉ asked := by
  intro fs
  induction fs with
  | nil =>
      intro h
      exact absurd h (by simp [findQuestion])
  | cons g rest ih =>
      intro h
      rcases hg : questionText c g with _ | q0
      · simp only [findQuestion, hg] at h
        exact ih h
      · simp only [findQuestion, hg] at h
        by_cases hmem : (c ++ "_" ++ g) ∈ asked
        · rw [if_pos hmem] at h
          exact ih h
        · rw [if_neg hmem] at h
          simp only [Option.some.injEq, Prod.mk.injEq] at h
          obtain ⟨h1, h2, h3⟩ := h
          subst h1
          subst h2
          exact ⟨rfl, hmem⟩

/-- Membership in the three-chunk conditional list forces one of the three
candidates. -/
theorem mem_three_chunks {x a b c' : String} {b1 b2 b3 : Bool}
    (h : x ∈ (if b1 then [] else [a]) ++ (if b2 then [] else [b]) ++ (if b3 then [] else [c'])) :
    x = a ∨ x = b ∨ x = c' := by
  cases b1 <;> cases b2 <;> cases b3 <;> simp_all <;> tauto

/-- Every missing account field has question text. -/
theorem missing_account_isSome (cd : SalesCallData) :
    ∀ f ∈ (get_missing_required_fields_from_data cd).account,
      (questionText "account" f).isSome = true := by
  intro f hf
  rcases mem_three_chunks hf with rfl | rfl | rfl <;> decide

/-- Every missing contact field has question text. -/
theorem missing_contact_isSome (cd : SalesCallData) :
    ∀ f ∈ (get_missing_required_fields_from_data cd).contact,
      (questionText "contact" f).isSome = true := by
  intro f hf
  rcases mem_three_chunks hf with rfl | rfl | rfl <;> decide

/-- Claim C7: `get_next_question` scans the categories in the fixed order
account, contact, opportunity, so a contact question is returned only
when every missing account field was already asked, and an opportunity
question only when every missing account and contact field was already
asked (a non-missing field is present; `account_<f>` is the question
identifier). -/
theorem next_question_priority (cd : SalesCallData) (asked : List String) (c f q : String)
    (h : get_next_question (some cd) asked = some (c, f, q)) :
    ((c = "contact" ∨ c = "opportunity") →
       ∀ g ∈ (get_missing_required_fields_from_data cd).account,
         ("account" ++ "_" ++ g) ∈ asked) ∧
    (c = "opportunity" →
       ∀ g ∈ (get_missing_required_fields_from_data cd).contact,
         ("contact" ++ "_" ++ g) ∈ asked) := by
  simp only [get_next_question] at h
  rcases hA : findQuestion "account" asked (get_missing_required_fields_from_data cd).account
    with _ | rA
  · rw [hA] at h
    rcases hC : findQuestion "contact" asked (get_missing_required_fields_from_data cd).contact
      with _ | rC
    · rw [hC] at h
      refine ⟨fun _ g hg => ?_, fun _ g hg => ?_⟩
      · exact findQuestion_eq_none hA g hg (missing_account_isSome cd g hg)
      · exact findQuestion_eq_none hC g hg (missing_contact_isSome cd g hg)
    · rw [hC] at h
      simp only [Option.some.injEq] at h
      subst h
      obtain ⟨hc, _⟩ := findQuestion_eq_some hC
      refine ⟨fun _ g hg => ?_, fun hop => ?_⟩
      · exact findQuestion_eq_none hA g hg (missing_account_isSome cd g hg)
      · rw [hc] at hop
        exact absurd hop (by decide)
  · rw [hA] at h
    simp only [Option.some.injEq] at h
    subst h
    obtain ⟨hc, _⟩ := findQuestion_eq_some hA
    refine ⟨fun hco => ?_, fun hop => ?_⟩
    · rw [hc] at hco
      rcases hco with hco | hco <;> exact absurd hco (by decide)
    · rw [hc] at hop
      exact absurd hop (by decide)

/-- Claim C7, witness: with account and contact complete and the whole
opportunity missing, the resolver returns the opportunity name question,
and the priority theorem\x27s conclusions hold with empty question log. -/
theorem next_question_priority_witness :
    get_next_question (some c7Data) [] =
      some ("opportunity", "name", "**What\x27s the name of the opportunity or deal?**") ∧
    (∀ g ∈ (get_missing_required_fields_from_data c7Data).account,
       ("account" ++ "_" ++ g) ∈ ([] : List String)) :=
  ⟨by decide,
   (next_question_priority c7Data [] "opportunity" "name"
      "**What\x27s the name of the opportunity or deal?**" (by decide)).1 (Or.inr rfl)⟩

/-! Claim C8. -/

/-- Appending one fresh element keeps a list duplicate-free. -/
theorem nodup_append_one {l : List String} {x : String}
    (h : l.Nodup) (hx : x ∉ l) : (l ++ [x]).Nodup := by
  simp [List.nodup_append, h, hx]

/-- Claim C8: the question log never acquires duplicates.  First,
`get_next_question` never returns a field whose identifier is already in
`questions_asked`; second, every operation that appends to
`questions_asked` — the chat-collection turn, the "Provide Info in Chat"
button, and the initial-question block — preserves `Nodup` because each
append is guarded by a membership check (or happens on a freshly emptied
log). -/
theorem questions_asked_no_duplicates :
    (∀ (cd : Option SalesCallData) (asked : List String) (c f q : String),
       get_next_question cd asked = some (c, f, q) → (c ++ "_" ++ f) ∉ asked) ∧
    (∀ (s : AppState) (prompt : String) (ext : ExtractResult),
       s.questions_asked.Nodup → (chat_collection_step s prompt ext).questions_asked.Nodup) ∧
    (∀ s : AppState,
       s.questions_asked.Nodup → (provide_info_in_chat_button s).questions_asked.Nodup) ∧
    (∀ s : AppState,
       s.questions_asked.Nodup → (initial_question_block s).questions_asked.Nodup) := by
  refine ⟨?_, ?_, ?_, ?_⟩
  · intro cd asked c f q h
    match cd with
    | none =>
        by_cases hm : "account_name" ∈ asked
        · simp [get_next_question, hm] at h
        · simp only [get_next_question, if_neg hm, Option.some.injEq, Prod.mk.injEq] at h
          obtain ⟨h1, h2, _⟩ := h
          subst h1
          subst h2
          have he : ("account" ++ "_" ++ "name") = "account_name" := by decide
          rw [he]
          exact hm
    | some data =>
        simp only [get_next_question] at h
        rcases hA : findQuestion "account" asked
            (get_missing_required_fields_from_data data).account with _ | rA
        · rw [hA] at h
          rcases hC : findQuestion "contact" asked
              (get_missing_required_fields_from_data data).contact with _ | rC
          · rw [hC] at h
            obtain ⟨hc, hmem⟩ := findQuestion_eq_some h
            rw [hc]
            exact hmem
          · rw [hC] at h
            simp only [Option.some.injEq] at h
            subst h
            obtain ⟨hc, hmem⟩ := findQuestion_eq_some hC
            rw [hc]
            exact hmem
        · rw [hA] at h
          simp only [Option.some.injEq] at h
          subst h
          obtain ⟨hc, hmem⟩ := findQuestion_eq_some hA
          rw [hc]
          exact hmem
  · intro s prompt ext h
    cases ext with
    | exn =>
        by_cases hm : "account_name" ∈ s.questions_asked
        · simpa [chat_collection_step, hm] using h
        · simp only [chat_collection_step, if_neg hm]
          exact nodup_append_one h hm
    | ok r =>
        match r with
        | none =>
            by_cases hm : "account_name" ∈ s.questions_asked
            · rcases hprev : s.extracted_data with _ | prev
              · simpa [chat_collection_step, hm, hprev] using h
              · rcases hq : get_next_question (some prev) s.questions_asked with _ | ⟨c, f, q⟩
                · simpa [chat_collection_step, hm, hprev, hq] using h
                · by_cases hqid : (c ++ "_" ++ f) ∈ s.questions_asked
                  · simpa [chat_collection_step, hm, hprev, hq, hqid] using h
                  · simp only [chat_collection_step, hprev, hq, if_pos hm, if_neg hqid]
                    exact nodup_append_one h hqid
            · simp only [chat_collection_step, if_neg hm]
              exact nodup_append_one h hm
        | some e =>
            rcases hq : get_next_question (some e) s.questions_asked with _ | ⟨c, f, q⟩
            · simpa [chat_collection_step, hq] using h
            · by_cases hqid : (c ++ "_" ++ f) ∈ s.questions_asked
              · simpa [chat_collection_step, hq, hqid] using h
              · simp only [chat_collection_step, hq, if_neg hqid]
                exact nodup_append_one h hqid
  · intro s _
    by_cases hc : s.messages.any (fun msg =>
        strContains msg.content.toLower "chat" && strContains msg.content.toLower "information")
    · simp [provide_info_in_chat_button, hc]
    · simp [provide_info_in_chat_button, hc]
  · intro s h
    by_cases h1 : s.messages.isEmpty || !(s.messages.any (fun m => m.role == "user"))
    · by_cases h2 : "account_name" ∈ s.questions_asked
      · simpa [initial_question_block, h1, h2] using h
      · by_cases h3 : s.messages.any
            (fun m => strContains m.content "What\x27s the name of the company")
        · simpa [initial_question_block, h1, h2, h3] using h
        · simp only [initial_question_block, if_pos h1, if_neg h2, if_neg h3]
          exact nodup_append_one h h2
    · simpa [initial_question_block, h1] using h

/-- Claim C8, witness: the invariant theorem applied to concrete inputs —
the resolver result on an empty log is not yet asked, and the three
operations keep the concrete log `["account_name"]` duplicate-free. -/
theorem questions_asked_no_duplicates_witness :
    ("account" ++ "_" ++ "name") ∉ ([] : List String) ∧
    (chat_collection_step c8State "hi" .exn).questions_asked.Nodup ∧
    (provide_info_in_chat_button c8State).questions_asked.Nodup ∧
    (initial_question_block c8State).questions_asked.Nodup :=
  ⟨questions_asked_no_duplicates.1 none [] "account" "name" accountNameQuestion rfl,
   questions_asked_no_duplicates.2.1 c8State "hi" .exn (by decide),
   questions_asked_no_duplicates.2.2.1 c8State (by decide),
   questions_asked_no_duplicates.2.2.2 c8State (by decide)⟩

/-! Claim C9. -/

/-- Claim C9: when the extraction collaborator raises on a chat-collection
turn, the stage (and every datum behind it) is unchanged — the session
continues; the controller asks the account-name question when it was not
asked yet (recording it), and otherwise emits only the non-fatal
informational message. -/
theorem extraction_exception_is_non_fatal (s : AppState) (prompt : String) :
    (chat_collection_step s prompt .exn).conversation_stage = s.conversation_stage ∧
    (chat_collection_step s prompt .exn).extracted_data = s.extracted_data ∧
    (chat_collection_step s prompt .exn).verified = s.verified ∧
    (chat_collection_step s prompt .exn).manual_inputs = s.manual_inputs ∧
    (if "account_name" ∈ s.questions_asked then
       (chat_collection_step s prompt .exn).messages =
         s.messages ++ [⟨"user", prompt⟩, ⟨"assistant", continueMsg⟩] ∧
       (chat_collection_step s prompt .exn).questions_asked = s.questions_asked
     else
       (chat_collection_step s prompt .exn).messages =
         s.messages ++ [⟨"user", prompt⟩, ⟨"assistant", accountNameQuestion⟩] ∧
       (chat_collection_step s prompt .exn).questions_asked =
         s.questions_asked ++ ["account_name"]) := by
  by_cases hm : "account_name" ∈ s.questions_asked <;>
    simp [chat_collection_step, hm]

/-! Claim C10. -/

/-- Claim C10: when the extracted data lacks an entity and every stored
manual entry for that category is falsy, the merge output leaves the
entity absent — the `any()` guards (`app.py` lines 183, 192, 207) prevent
synthesizing an entity from all-empty manual inputs. -/
theorem empty_manual_never_synthesizes (cd : SalesCallData) (manual : ManualInputs) :
    ∀ merged, merge_manual_inputs manual cd = .ok merged →
      (cd.account = none → accountAnyTruthy manual.account = false → merged.account = none) ∧
      (cd.contact = none → contactAnyTruthy manual.contact = false → merged.contact = none) ∧
      (cd.opportunity = none → opportunityAnyTruthy manual.opportunity = false →
         merged.opportunity = none) := by
  intro merged h
  rcases ho : mergeOpportunity manual.opportunity cd.opportunity with e | o
  · rw [merge_manual_inputs, ho] at h
    exact absurd h (by simp)
  · rw [merge_manual_inputs, ho] at h
    simp only [Except.ok.injEq] at h
    subst h
    refine ⟨fun ha ht => ?_, fun hc ht => ?_, fun hp ht => ?_⟩
    · simp [mergeAccount, ha, ht]
    · simp [mergeContact, hc, ht]
    · rw [hp] at ho
      simp only [mergeOpportunity, ht, Bool.and_false] at ho
      simp only [Bool.false_eq_true, if_false] at ho
      simp only [Except.ok.injEq] at ho
      simpa using ho.symm

/-- Claim C10, witness: with no extracted entities and only empty-string
manual entries, the merge returns the record unchanged and every entity
stays absent. -/
theorem empty_manual_never_synthesizes_witness :
    merge_manual_inputs c10Manual c10Data = .ok c10Data ∧
    c10Data.account = none ∧ c10Data.contact = none ∧ c10Data.opportunity = none :=
  ⟨rfl,
   (empty_manual_never_synthesizes c10Data c10Manual c10Data rfl).1 rfl rfl,
   (empty_manual_never_synthesizes c10Data c10Manual c10Data rfl).2.1 rfl rfl,
   (empty_manual_never_synthesizes c10Data c10Manual c10Data rfl).2.2 rfl rfl⟩

end MrsSalesforce
